import Mathlib

/-!
Verification of the health-check surface of relivator-docker-frontend.

The embedded source lives in `src/server/health.ts` (two observed variants:
`part_000` with an extra backend probe inside the request wrapper, and
`part_001` without it) and `src/app/api/health/route.ts`.

Conventions of the shallow embedding:
* JavaScript thrown values are modelled by `Thrown`: either an `Error`
  instance (with its `message`, an optional `digest` property, and the
  `instanceof ZodError` / `instanceof ApiError` facts together with the
  data those classes carry), or a non-`Error` value.
* `NextResponse.json(body, init)` is modelled by a `NextResp` record with a
  numeric `status` and the JSON `body`.
* The conditional logger (`console` in normal mode, a no-op object when
  `NODE_ENV === "test"`) is modelled by `condLog`; log lines become
  structured `LogEvent`s carrying exactly the data interpolated into the
  original template strings.
* Clock reads (`new Date()`) become explicit integer millisecond
  parameters: `wrapTime` is the read performed when `handler(...)` wraps a
  route (module load), `completeTime` the read performed after the inner
  handler settles.
* The single outbound `fetch` is modelled by a function from the requested
  URL to a `FetchOutcome`: either a response with an HTTP status, or a
  thrown transport error.
-/

/-- One issue of a `ZodError` (path, message, code), passed through opaquely. -/
structure ZodIssue where
  code : String
  path : List String
  message : String
deriving DecidableEq

/-- The `digest` property of an `Error` object: a string value or a value of
some other runtime type (`typeof e.digest === "string"` fails on the latter). -/
inductive DigestField where
  | strDigest (s : String)
  | nonStrDigest
deriving DecidableEq

/-- An `Error` instance as the classifier observes it: its `message`, its
optional `digest` property, whether it is `instanceof ZodError` (and its
`issues`), and whether it is `instanceof ApiError` (and its `status`). -/
structure JsError where
  message : String
  digest : Option DigestField
  isZod : Bool
  issues : List ZodIssue
  isApi : Bool
  status : Nat
deriving DecidableEq

/-- An arbitrary JavaScript thrown value: an `Error` instance or anything
else (a string, a plain object, ...), abstracted to a tag. -/
inductive Thrown where
  | jsError (e : JsError)
  | nonError (tag : String)
deriving DecidableEq

/-- `s.startsWith("NEXT_")`, embedded structurally over the character
sequence (JavaScript's `startsWith` tests that the argument's characters
are an initial segment of `s`). -/
def startsWithNext (s : String) : Bool :=
  List.isPrefixOf "NEXT_".data s.data

/-- `isNextJsError` from health.ts: `e instanceof Error && "digest" in e &&
typeof e.digest === "string" && e.digest.startsWith("NEXT_")`. -/
def isNextJsError : Thrown → Bool
  | Thrown.jsError e =>
    match e.digest with
    | some (DigestField.strDigest s) => startsWithNext s
    | some DigestField.nonStrDigest => false
    | none => false
  | Thrown.nonError _ => false

/-- `err instanceof ZodError` (a `ZodError` is itself an `Error`). -/
def isZodError : Thrown → Bool
  | Thrown.jsError e => e.isZod
  | Thrown.nonError _ => false

/-- `isApiError` from health.ts: `e instanceof ApiError`. -/
def isApiError : Thrown → Bool
  | Thrown.jsError e => e.isApi
  | Thrown.nonError _ => false

/-- `err.issues` as read in the `ZodError` branch. -/
def thrownIssues : Thrown → List ZodIssue
  | Thrown.jsError e => e.issues
  | Thrown.nonError _ => []

/-- `err.message` as read in the `ApiError` branch. -/
def thrownMessage : Thrown → String
  | Thrown.jsError e => e.message
  | Thrown.nonError _ => ""

/-- `err.status` as read in the `ApiError` branch. -/
def thrownStatus : Thrown → Nat
  | Thrown.jsError e => e.status
  | Thrown.nonError _ => 500

/-- The `ApiError` constructor: `super(message ?? "Internal Error")` with the
field initializer `status = 500`. -/
def mkApiError (message : Option String) : Thrown :=
  Thrown.jsError
    { message := message.getD "Internal Error"
      digest := none
      isZod := false
      issues := []
      isApi := true
      status := 500 }

/-- The `ApiResponse<T>` union: `{ ok: true, data }` or
`{ ok: false, error, issues? }`; the `ok` discriminant is the constructor. -/
inductive ApiResponse (T : Type) where
  | success (data : T)
  | failure (error : String) (issues : Option (List ZodIssue))
deriving DecidableEq

/-- A `NextResponse<T>` as observed by this code: HTTP status plus JSON body
(`NextResponse.json(body)` defaults to status 200). -/
structure NextResp (T : Type) where
  status : Nat
  body : T
deriving DecidableEq

/-- A structured log line; each constructor carries exactly the data the
corresponding template string interpolates. -/
inductive LogEvent where
  | incoming (method url : String)
  | completed (method url : String) (status : Nat) (responseTimeMs : Int)
  | backendVerdict (method url : String) (verdict : String)
  | errorLog (label : String) (err : Thrown)
  | probeError (message : String)
deriving DecidableEq

/-- The conditional logger: `env.NODE_ENV === "test" ? noop : console`.
Events routed through it vanish in test mode. -/
def condLog (nodeEnv : String) (events : List LogEvent) : List LogEvent :=
  if nodeEnv = "test" then [] else events

/-- Result of `buildErrorResponse`: either the value is re-thrown or a
`NextResponse` is produced. -/
inductive BuildResult (T : Type) where
  | thrown (e : Thrown)
  | response (r : NextResp (ApiResponse T))
deriving DecidableEq

/-- `buildErrorResponse` from health.ts: the if-chain over the thrown value —
re-throw Next.js control-flow errors, map `ZodError` to 400, `ApiError` to
its own status/message, and anything else to a logged generic 500. -/
def buildErrorResponse {T : Type} (nodeEnv : String) (err : Thrown) :
    BuildResult T × List LogEvent :=
  if isNextJsError err then
    (BuildResult.thrown err, [])
  else if isZodError err then
    (BuildResult.response
      { status := 400
        body := ApiResponse.failure "Validation Error" (some (thrownIssues err)) },
     [])
  else if isApiError err then
    (BuildResult.response
      { status := thrownStatus err
        body := ApiResponse.failure (thrownMessage err) none },
     [])
  else
    (BuildResult.response
      { status := 500
        body := ApiResponse.failure "Internal server error" none },
     condLog nodeEnv [LogEvent.errorLog "Unhandled API Error" err])

/-- What one invocation of the inner route handler does: settle with a
response, or throw. -/
inductive HandlerOutcome (T : Type) where
  | returns (resp : NextResp (ApiResponse T))
  | throws (e : Thrown)
deriving DecidableEq

/-- Outcome of the single outbound `fetch`: an HTTP response with a status,
or a thrown transport error (DNS failure, connection refused, ...). -/
inductive FetchOutcome where
  | response (status : Nat)
  | throws (message : String)
deriving DecidableEq

/-- node-fetch's `Response.ok`: status in the 2xx range. -/
def responseOk (status : Nat) : Bool :=
  200 ≤ status && status ≤ 299

/-- Whether a fetch outcome is a response satisfying `response.ok`. -/
def fetchOk : FetchOutcome → Bool
  | FetchOutcome.response s => responseOk s
  | FetchOutcome.throws _ => false

/-- `checkBackendHealth` from health.ts (part_000): GET
`${env.NEXT_PUBLIC_BACKEND_URL}/backend-health`, answer `"Backend is
healthy"` iff `response.ok`, and map a thrown transport error to
`"Backend is unhealthy"` after `console.error("Error checking backend
health:", error)` — note: `console.error` directly, not the conditional
logger. -/
def checkBackendHealth (baseUrl : String) (fetchF : String → FetchOutcome) :
    String × List LogEvent :=
  match fetchF (baseUrl ++ "/backend-health") with
  | FetchOutcome.response status =>
    if responseOk status then ("Backend is healthy", [])
    else ("Backend is unhealthy", [])
  | FetchOutcome.throws msg =>
    ("Backend is unhealthy", [LogEvent.probeError msg])

/-- How the async function returned by the wrapper settles: it rejects with
a re-raised thrown value, or resolves with a response. -/
inductive Settled (T : Type) where
  | raised (e : Thrown)
  | responded (r : NextResp (ApiResponse T))
deriving DecidableEq

/-- The wrapper `handler` of variant part_001 applied to one invocation.
`wrapTime` is the `new Date()` captured when `handler(routeHandler)` ran
(outside the returned async function), `completeTime` the `new Date()` read
after the try/catch settles. Returns the settled result (`Settled.raised`
the re-thrown value when `buildErrorResponse` re-raises) and the emitted log
events in order. -/
def wrapHandler001 {T : Type} (nodeEnv : String) (wrapTime : Int)
    (method url : String) (outcome : HandlerOutcome T) (completeTime : Int) :
    Settled T × List LogEvent :=
  let incoming := condLog nodeEnv [LogEvent.incoming method url]
  match outcome with
  | HandlerOutcome.returns resp =>
    (Settled.responded resp,
     incoming ++
       condLog nodeEnv
         [LogEvent.completed method url resp.status (completeTime - wrapTime)])
  | HandlerOutcome.throws e =>
    match @buildErrorResponse T nodeEnv e with
    | (BuildResult.thrown e2, lgs) =>
      (Settled.raised e2, incoming ++ lgs)
    | (BuildResult.response resp, lgs) =>
      (Settled.responded resp,
       incoming ++ lgs ++
         condLog nodeEnv
           [LogEvent.completed method url resp.status (completeTime - wrapTime)])

/-- Output of one invocation of the part_000 wrapper: the settled result,
the log events in emission order, and how many times `checkBackendHealth`
was invoked during the invocation. -/
structure Wrap000Output (T : Type) where
  result : Settled T
  logs : List LogEvent
  probeCalls : Nat
deriving DecidableEq

/-- The wrapper `handler` of variant part_000 applied to one invocation:
identical to part_001 up to the completed-request log line, then it
additionally awaits `checkBackendHealth` and logs its verdict before
returning the already-determined response. -/
def wrapHandler000 {T : Type} (nodeEnv : String) (wrapTime : Int)
    (method url : String) (outcome : HandlerOutcome T) (completeTime : Int)
    (baseUrl : String) (fetchF : String → FetchOutcome) : Wrap000Output T :=
  let incoming := condLog nodeEnv [LogEvent.incoming method url]
  match outcome with
  | HandlerOutcome.returns resp =>
    let probe := checkBackendHealth baseUrl fetchF
    { result := Settled.responded resp
      logs := incoming ++
        condLog nodeEnv
          [LogEvent.completed method url resp.status (completeTime - wrapTime)] ++
        probe.2 ++
        condLog nodeEnv [LogEvent.backendVerdict method url probe.1]
      probeCalls := 1 }
  | HandlerOutcome.throws e =>
    match @buildErrorResponse T nodeEnv e with
    | (BuildResult.thrown e2, lgs) =>
      { result := Settled.raised e2
        logs := incoming ++ lgs
        probeCalls := 0 }
    | (BuildResult.response resp, lgs) =>
      let probe := checkBackendHealth baseUrl fetchF
      { result := Settled.responded resp
        logs := incoming ++ lgs ++
          condLog nodeEnv
            [LogEvent.completed method url resp.status (completeTime - wrapTime)] ++
          probe.2 ++
          condLog nodeEnv [LogEvent.backendVerdict method url probe.1]
        probeCalls := 1 }

/-- The raised failure (if any) a caller of the wrapped handler observes. -/
def raisedFailure {T : Type} : Settled T → Option Thrown
  | Settled.raised e => some e
  | Settled.responded _ => none

/-- The payload of route.ts's `GET /api/health` handler. -/
structure ResponseData where
  frontendHealth : String
  backendHealth : String
deriving DecidableEq

/-- route.ts: `const gitSha = process.env.VERCEL_GIT_COMMIT_SHA ?? "local"`
followed by `gitSha.substring(0, 7)`. -/
def gitShaShort (vercelSha : Option String) : String :=
  (vercelSha.getD "local").take 7

/-- The inner handler of `GET /api/health` (route.ts): probe the backend,
then `NextResponse.json({ ok: true, data: { backendHealth, frontendHealth:
gitSha.substring(0, 7) } })` — default status 200, never throws. -/
def healthGETOutcome (vercelSha : Option String) (baseUrl : String)
    (fetchF : String → FetchOutcome) : HandlerOutcome ResponseData :=
  HandlerOutcome.returns
    { status := 200
      body := ApiResponse.success
        { frontendHealth := gitShaShort vercelSha
          backendHealth := (checkBackendHealth baseUrl fetchF).1 } }

/-- The exported route `GET = handler<ResponseData>(...)` of route.ts,
composed with the part_000 wrapper (the variant that also exports
`checkBackendHealth`, which route.ts imports). -/
def apiHealthGET (nodeEnv : String) (wrapTime completeTime : Int)
    (vercelSha : Option String) (baseUrl : String)
    (fetchF : String → FetchOutcome) : Wrap000Output ResponseData :=
  wrapHandler000 nodeEnv wrapTime "GET" "/api/health"
    (healthGETOutcome vercelSha baseUrl fetchF) completeTime baseUrl fetchF

/-- A thrown value that satisfies the framework-flow predicate and both
later predicates at once: an `Error` with a `NEXT_`-prefixed digest that is
also `instanceof ZodError` and `instanceof ApiError`. -/
def bothFlagsError : Thrown :=
  Thrown.jsError
    { message := "boom"
      digest := some (DigestField.strDigest "NEXT_REDIRECT")
      isZod := true
      issues := [{ code := "custom", path := [], message := "bad" }]
      isApi := true
      status := 404 }

/-- C1: classification is first-match-wins with the framework-flow check
first: every thrown value satisfying `isNextJsError` is re-raised by
`buildErrorResponse` — in particular one that also satisfies the
validation-error or API-error predicates — and is never translated into a
response. -/
theorem buildErrorResponse_frameworkSignal_first {T : Type} (nodeEnv : String)
    (e : Thrown) (h : isNextJsError e = true) :
    @buildErrorResponse T nodeEnv e = (BuildResult.thrown e, []) := by
  simp [buildErrorResponse, h]

/-- Witness for C1 at a value that is simultaneously a framework signal, a
`ZodError` and an `ApiError`: it is re-raised, not turned into a response. -/
theorem buildErrorResponse_frameworkSignal_first_witness :
    isNextJsError bothFlagsError = true ∧
    isZodError bothFlagsError = true ∧
    isApiError bothFlagsError = true ∧
    @buildErrorResponse Unit "production" bothFlagsError =
      (BuildResult.thrown bothFlagsError, []) :=
  ⟨by decide, by decide, by decide,
   buildErrorResponse_frameworkSignal_first "production" bothFlagsError (by decide)⟩

/-- C2: a thrown value matching none of the known predicates yields status
500 with the fixed body `{ ok: false, error: "Internal server error" }`
(independent of the value's own message), and the value itself is logged at
error severity under the fixed label "Unhandled API Error" through the
conditional logger. -/
theorem buildErrorResponse_unknown_failure {T : Type} (nodeEnv : String)
    (e : Thrown) (hn : isNextJsError e = false) (hz : isZodError e = false)
    (ha : isApiError e = false) :
    @buildErrorResponse T nodeEnv e =
      (BuildResult.response
        { status := 500
          body := ApiResponse.failure "Internal server error" none },
       condLog nodeEnv [LogEvent.errorLog "Unhandled API Error" e]) := by
  simp [buildErrorResponse, hn, hz, ha]

/-- Witness for C2 at the non-`Error` thrown value `"boom"` in production
mode: fixed 500 body and one error-severity log carrying the value. -/
theorem buildErrorResponse_unknown_failure_witness :
    isNextJsError (Thrown.nonError "boom") = false ∧
    isZodError (Thrown.nonError "boom") = false ∧
    isApiError (Thrown.nonError "boom") = false ∧
    @buildErrorResponse Unit "production" (Thrown.nonError "boom") =
      (BuildResult.response
        { status := 500
          body := ApiResponse.failure "Internal server error" none },
       [LogEvent.errorLog "Unhandled API Error" (Thrown.nonError "boom")]) := by
  refine ⟨by decide, by decide, by decide, ?_⟩
  have h := @buildErrorResponse_unknown_failure Unit "production"
    (Thrown.nonError "boom") (by decide) (by decide) (by decide)
  rw [h]
  decide

/-- C5: a thrown `ZodError` (not flagged as a framework signal) yields
status 400 with body `{ ok: false, error: "Validation Error", issues:
err.issues }`, the issue list passed through unchanged (same length, order
and content), with no log emitted. -/
theorem buildErrorResponse_validation {T : Type} (nodeEnv : String)
    (e : Thrown) (hn : isNextJsError e = false) (hz : isZodError e = true) :
    @buildErrorResponse T nodeEnv e =
      (BuildResult.response
        { status := 400
          body := ApiResponse.failure "Validation Error" (some (thrownIssues e)) },
       []) := by
  simp [buildErrorResponse, hn, hz]

/-- A `ZodError` carrying two ordered issues. -/
def twoIssueZodError : Thrown :=
  Thrown.jsError
    { message := "invalid input"
      digest := none
      isZod := true
      issues := [{ code := "too_small", path := ["a"], message := "msg1" },
                 { code := "invalid_type", path := ["b", "c"], message := "msg2" }]
      isApi := false
      status := 500 }

/-- Witness for C5 at a two-issue `ZodError`: 400 with both issues in their
original order. -/
theorem buildErrorResponse_validation_witness :
    isNextJsError twoIssueZodError = false ∧
    isZodError twoIssueZodError = true ∧
    @buildErrorResponse Unit "production" twoIssueZodError =
      (BuildResult.response
        { status := 400
          body := ApiResponse.failure "Validation Error"
            (some [{ code := "too_small", path := ["a"], message := "msg1" },
                   { code := "invalid_type", path := ["b", "c"], message := "msg2" }]) },
       []) := by
  refine ⟨by decide, by decide, ?_⟩
  have h := @buildErrorResponse_validation Unit "production" twoIssueZodError
    (by decide) (by decide)
  rw [h]
  decide

/-- C6: a thrown `ApiError` (matching neither earlier predicate) yields its
own `status` and body `{ ok: false, error: err.message }`; the `ApiError`
constructor defaults `status` to 500 and, absent a message argument, the
message to "Internal Error". -/
theorem buildErrorResponse_apiError {T : Type} (nodeEnv : String) (e : Thrown)
    (m : String) (hn : isNextJsError e = false) (hz : isZodError e = false)
    (ha : isApiError e = true) :
    @buildErrorResponse T nodeEnv e =
      (BuildResult.response
        { status := thrownStatus e
          body := ApiResponse.failure (thrownMessage e) none },
       []) ∧
    thrownStatus (mkApiError none) = 500 ∧
    thrownMessage (mkApiError none) = "Internal Error" ∧
    thrownStatus (mkApiError (some m)) = 500 ∧
    thrownMessage (mkApiError (some m)) = m := by
  refine ⟨by simp [buildErrorResponse, hn, hz, ha], rfl, rfl, rfl, rfl⟩

/-- An `ApiError` with a caller-set status 403 and message "Forbidden". -/
def forbiddenApiError : Thrown :=
  Thrown.jsError
    { message := "Forbidden"
      digest := none
      isZod := false
      issues := []
      isApi := true
      status := 403 }

/-- Witness for C6 at an `ApiError` with status 403 and message
"Forbidden": response status 403, body error "Forbidden"; constructor
defaults checked at message "Unauthorized". -/
theorem buildErrorResponse_apiError_witness :
    isNextJsError forbiddenApiError = false ∧
    isZodError forbiddenApiError = false ∧
    isApiError forbiddenApiError = true ∧
    (@buildErrorResponse Unit "production" forbiddenApiError =
      (BuildResult.response
        { status := thrownStatus forbiddenApiError
          body := ApiResponse.failure (thrownMessage forbiddenApiError) none },
       []) ∧
     thrownStatus (mkApiError none) = 500 ∧
     thrownMessage (mkApiError none) = "Internal Error" ∧
     thrownStatus (mkApiError (some "Unauthorized")) = 500 ∧
     thrownMessage (mkApiError (some "Unauthorized")) = "Unauthorized") :=
  ⟨by decide, by decide, by decide,
   @buildErrorResponse_apiError Unit "production" forbiddenApiError "Unauthorized"
     (by decide) (by decide) (by decide)⟩

/-- C3: a raised failure crosses the part_001 wrapper boundary iff the
inner handler threw a framework control-flow signal, and in that case the
identical thrown value propagates; every other invocation settles with a
response (never raises). -/
theorem wrapHandler_raises_iff_framework_signal {T : Type} (nodeEnv : String)
    (wrapTime completeTime : Int) (method url : String)
    (outcome : HandlerOutcome T) :
    raisedFailure
        (wrapHandler001 nodeEnv wrapTime method url outcome completeTime).1 =
      (match outcome with
       | HandlerOutcome.throws e => if isNextJsError e then some e else none
       | HandlerOutcome.returns _ => none) := by
  cases outcome with
  | returns resp => simp [wrapHandler001, raisedFailure]
  | throws e =>
    cases hN : isNextJsError e with
    | true => simp [wrapHandler001, buildErrorResponse, hN, raisedFailure]
    | false =>
      cases hZ : isZodError e with
      | true => simp [wrapHandler001, buildErrorResponse, hN, hZ, raisedFailure]
      | false =>
        cases hA : isApiError e with
        | true =>
          simp [wrapHandler001, buildErrorResponse, hN, hZ, hA, raisedFailure]
        | false =>
          simp [wrapHandler001, buildErrorResponse, hN, hZ, hA, raisedFailure]

/-- C4: `checkBackendHealth` answers "Backend is healthy" exactly when the
single GET to `baseUrl ++ "/backend-health"` yields a response with
`response.ok` (2xx); every other outcome — non-2xx status or thrown
transport error — yields "Backend is unhealthy", and the function only ever
returns one of these two strings (it cannot raise). -/
theorem checkBackendHealth_verdict (baseUrl : String)
    (fetchF : String → FetchOutcome) :
    ((checkBackendHealth baseUrl fetchF).1 = "Backend is healthy" ↔
       fetchOk (fetchF (baseUrl ++ "/backend-health")) = true) ∧
    ((checkBackendHealth baseUrl fetchF).1 = "Backend is healthy" ∨
     (checkBackendHealth baseUrl fetchF).1 = "Backend is unhealthy") := by
  cases hf : fetchF (baseUrl ++ "/backend-health") with
  | response s =>
    cases ho : responseOk s with
    | true => simp [checkBackendHealth, hf, ho, fetchOk]
    | false => simp [checkBackendHealth, hf, ho, fetchOk]
  | throws m => simp [checkBackendHealth, hf, fetchOk]

/-- C7: `GET /api/health` always settles with HTTP 200 and body
`{ ok: true, data: { backendHealth, frontendHealth } }`, where
`frontendHealth` is the first 7 characters of the commit sha (or "local"
when unset) and `backendHealth` is the probe verdict: "Backend is healthy"
when the backend responds 2xx, "Backend is unhealthy" otherwise — an
unreachable backend never fails the outer request. -/
theorem apiHealth_endpoint_behavior (nodeEnv : String)
    (wrapTime completeTime : Int) (vercelSha : Option String)
    (baseUrl : String) (fetchF : String → FetchOutcome) :
    ((apiHealthGET nodeEnv wrapTime completeTime vercelSha baseUrl fetchF).result =
      Settled.responded
        { status := 200
          body := ApiResponse.success
            { frontendHealth := gitShaShort vercelSha
              backendHealth := (checkBackendHealth baseUrl fetchF).1 } }) ∧
    (fetchOk (fetchF (baseUrl ++ "/backend-health")) = true →
      (checkBackendHealth baseUrl fetchF).1 = "Backend is healthy") ∧
    (fetchOk (fetchF (baseUrl ++ "/backend-health")) = false →
      (checkBackendHealth baseUrl fetchF).1 = "Backend is unhealthy") := by
  refine ⟨by simp [apiHealthGET, wrapHandler000, healthGETOutcome], ?_, ?_⟩
  · intro h
    cases hf : fetchF (baseUrl ++ "/backend-health") with
    | response s =>
      rw [hf] at h
      simp [fetchOk] at h
      simp [checkBackendHealth, hf, h]
    | throws m =>
      rw [hf] at h
      simp [fetchOk] at h
  · intro h
    cases hf : fetchF (baseUrl ++ "/backend-health") with
    | response s =>
      rw [hf] at h
      simp [fetchOk] at h
      simp [checkBackendHealth, hf, h]
    | throws m =>
      simp [checkBackendHealth, hf]

/-- A transport that answers every request with HTTP 200. -/
def fetchAlways200 : String → FetchOutcome :=
  fun _ => FetchOutcome.response 200

/-- A transport whose every request raises a connection-refused error. -/
def fetchRefused : String → FetchOutcome :=
  fun _ => FetchOutcome.throws "ECONNREFUSED"

/-- Witness for C7: with a 16-character sha and a backend answering 200 the
body reports "Backend is healthy" and the truncated sha; with no sha and a
connection-refused transport error the result is still a 200 response with
"Backend is unhealthy" and "local". -/
theorem apiHealth_endpoint_behavior_witness :
    ((apiHealthGET "production" 0 5 (some "0123456789abcdef") "http://backend"
        fetchAlways200).result =
      Settled.responded
        { status := 200
          body := ApiResponse.success
            { frontendHealth := "0123456"
              backendHealth := "Backend is healthy" } }) ∧
    ((apiHealthGET "production" 0 5 none "http://backend"
        fetchRefused).result =
      Settled.responded
        { status := 200
          body := ApiResponse.success
            { frontendHealth := "local"
              backendHealth := "Backend is unhealthy" } }) := by
  constructor
  · have h := (apiHealth_endpoint_behavior "production" 0 5
      (some "0123456789abcdef") "http://backend" fetchAlways200).1
    rw [h]
    decide
  · have h := (apiHealth_endpoint_behavior "production" 0 5 none "http://backend"
      fetchRefused).1
    rw [h]
    decide

/-- A successful inner-handler response with status 200 and a unit payload. -/
def sampleOkResp : NextResp (ApiResponse Unit) :=
  { status := 200, body := ApiResponse.success () }

/-- C8 (recording the code's actual behaviour): the start timestamp is the
`new Date()` captured when `handler(...)` wrapped the route, so the logged
elapsed milliseconds equal completion time minus *wrap* time: a wrapper
created at 0 ms whose invocation completes at 150 ms logs 150 ms, even for
an invocation that only began at 100 ms (whose own elapsed time would be
150 - 100 = 50 ms). -/
theorem responseTime_measured_from_wrap_time :
    wrapHandler001 "production" 0 "GET" "/api/health"
        (HandlerOutcome.returns sampleOkResp) 150 =
      (Settled.responded sampleOkResp,
       [LogEvent.incoming "GET" "/api/health",
        LogEvent.completed "GET" "/api/health" 200 150]) ∧
    (150 : Int) ≠ 150 - 100 := by
  constructor
  · decide
  · decide

/-- Counterexample for C9: in test mode an invocation whose backend probe
hits a transport error still emits a log line — the prober writes through
`console.error` directly, bypassing the silenced conditional logger. -/
theorem probeError_logged_in_test_mode :
    (wrapHandler000 "test" 0 "GET" "/api/health"
        (HandlerOutcome.returns sampleOkResp) 5 "http://backend"
        fetchRefused).logs =
      [LogEvent.probeError "ECONNREFUSED"] ∧
    (wrapHandler000 "test" 0 "GET" "/api/health"
        (HandlerOutcome.returns sampleOkResp) 5 "http://backend"
        fetchRefused).logs ≠ [] := by
  constructor
  · decide
  · decide

/-- The complete sequence of conditional-logger lines one invocation of
either wrapper routes through the logger, in emission order: the incoming
line, then (unless the thrown value is re-raised as a framework signal) the
error-classifier line when the fallback branch ran, then the
completed-request line with the classified status. -/
def fullRequestLogs {T : Type} (wrapTime completeTime : Int)
    (method url : String) (outcome : HandlerOutcome T) : List LogEvent :=
  match outcome with
  | HandlerOutcome.returns resp =>
    [LogEvent.incoming method url,
     LogEvent.completed method url resp.status (completeTime - wrapTime)]
  | HandlerOutcome.throws e =>
    if isNextJsError e then
      [LogEvent.incoming method url]
    else if isZodError e then
      [LogEvent.incoming method url,
       LogEvent.completed method url 400 (completeTime - wrapTime)]
    else if isApiError e then
      [LogEvent.incoming method url,
       LogEvent.completed method url (thrownStatus e) (completeTime - wrapTime)]
    else
      [LogEvent.incoming method url,
       LogEvent.errorLog "Unhandled API Error" e,
       LogEvent.completed method url 500 (completeTime - wrapTime)]

/-- The prober's console-written transport-error lines of one part_000
invocation: the probe's own log output when the invocation reaches the
probe, nothing when a framework signal is re-raised first. These lines
bypass the conditional logger. -/
def probeConsoleLogs {T : Type} (baseUrl : String)
    (fetchF : String → FetchOutcome) (outcome : HandlerOutcome T) :
    List LogEvent :=
  match outcome with
  | HandlerOutcome.returns _ => (checkBackendHealth baseUrl fetchF).2
  | HandlerOutcome.throws e =>
    if isNextJsError e then [] else (checkBackendHealth baseUrl fetchF).2

/-- The part_000 wrapper's lines after the completed-request line: the
probe's console lines followed by the conditional-logger verdict line —
again absent entirely when a framework signal is re-raised first. -/
def wrap000ExtraLogs {T : Type} (method url baseUrl : String)
    (fetchF : String → FetchOutcome) (outcome : HandlerOutcome T) :
    List LogEvent :=
  match outcome with
  | HandlerOutcome.returns _ =>
    (checkBackendHealth baseUrl fetchF).2 ++
      [LogEvent.backendVerdict method url (checkBackendHealth baseUrl fetchF).1]
  | HandlerOutcome.throws e =>
    if isNextJsError e then []
    else
      (checkBackendHealth baseUrl fetchF).2 ++
        [LogEvent.backendVerdict method url (checkBackendHealth baseUrl fetchF).1]

/-- C9 as amended: in test mode every line routed through the conditional
logger is suppressed — the part_001 wrapper emits nothing at all, and the
part_000 wrapper emits exactly the prober's console-written transport-error
lines, which appear in every mode; in any non-test mode both wrappers emit
all their log lines: the incoming, error-classifier and completed lines,
and for part_000 additionally the probe's console lines and the verdict
line. -/
theorem test_mode_silences_all_but_probe {T : Type} (nodeEnv : String)
    (wrapTime completeTime : Int) (method url : String)
    (outcome : HandlerOutcome T) (baseUrl : String)
    (fetchF : String → FetchOutcome) :
    ((wrapHandler001 "test" wrapTime method url outcome completeTime).2 = []) ∧
    ((wrapHandler000 "test" wrapTime method url outcome completeTime
        baseUrl fetchF).logs = probeConsoleLogs baseUrl fetchF outcome) ∧
    (nodeEnv ≠ "test" →
      (wrapHandler001 nodeEnv wrapTime method url outcome completeTime).2 =
        fullRequestLogs wrapTime completeTime method url outcome ∧
      (wrapHandler000 nodeEnv wrapTime method url outcome completeTime
          baseUrl fetchF).logs =
        fullRequestLogs wrapTime completeTime method url outcome ++
          wrap000ExtraLogs method url baseUrl fetchF outcome) := by
  refine ⟨?_, ?_, ?_⟩
  · cases outcome with
    | returns resp => simp [wrapHandler001, condLog]
    | throws e =>
      cases hN : isNextJsError e with
      | true => simp [wrapHandler001, buildErrorResponse, hN, condLog]
      | false =>
        cases hZ : isZodError e with
        | true => simp [wrapHandler001, buildErrorResponse, hN, hZ, condLog]
        | false =>
          cases hA : isApiError e with
          | true => simp [wrapHandler001, buildErrorResponse, hN, hZ, hA, condLog]
          | false => simp [wrapHandler001, buildErrorResponse, hN, hZ, hA, condLog]
  · cases outcome with
    | returns resp => simp [wrapHandler000, condLog, probeConsoleLogs]
    | throws e =>
      cases hN : isNextJsError e with
      | true =>
        simp [wrapHandler000, buildErrorResponse, hN, condLog, probeConsoleLogs]
      | false =>
        cases hZ : isZodError e with
        | true =>
          simp [wrapHandler000, buildErrorResponse, hN, hZ, condLog,
            probeConsoleLogs]
        | false =>
          cases hA : isApiError e with
          | true =>
            simp [wrapHandler000, buildErrorResponse, hN, hZ, hA, condLog,
              probeConsoleLogs]
          | false =>
            simp [wrapHandler000, buildErrorResponse, hN, hZ, hA, condLog,
              probeConsoleLogs]
  · intro hne
    constructor
    · cases outcome with
      | returns resp => simp [wrapHandler001, condLog, hne, fullRequestLogs]
      | throws e =>
        cases hN : isNextJsError e with
        | true =>
          simp [wrapHandler001, buildErrorResponse, hN, condLog, hne,
            fullRequestLogs]
        | false =>
          cases hZ : isZodError e with
          | true =>
            simp [wrapHandler001, buildErrorResponse, hN, hZ, condLog, hne,
              fullRequestLogs]
          | false =>
            cases hA : isApiError e with
            | true =>
              simp [wrapHandler001, buildErrorResponse, hN, hZ, hA, condLog,
                hne, fullRequestLogs]
            | false =>
              simp [wrapHandler001, buildErrorResponse, hN, hZ, hA, condLog,
                hne, fullRequestLogs]
    · cases outcome with
      | returns resp =>
        simp [wrapHandler000, condLog, hne, fullRequestLogs, wrap000ExtraLogs,
          List.append_assoc]
      | throws e =>
        cases hN : isNextJsError e with
        | true =>
          simp [wrapHandler000, buildErrorResponse, hN, condLog, hne,
            fullRequestLogs, wrap000ExtraLogs]
        | false =>
          cases hZ : isZodError e with
          | true =>
            simp [wrapHandler000, buildErrorResponse, hN, hZ, condLog, hne,
              fullRequestLogs, wrap000ExtraLogs, List.append_assoc]
          | false =>
            cases hA : isApiError e with
            | true =>
              simp [wrapHandler000, buildErrorResponse, hN, hZ, hA, condLog,
                hne, fullRequestLogs, wrap000ExtraLogs, List.append_assoc]
            | false =>
              simp [wrapHandler000, buildErrorResponse, hN, hZ, hA, condLog,
                hne, fullRequestLogs, wrap000ExtraLogs, List.append_assoc]

/-- Witness for C9 as amended, at a normally-returning invocation with a
connection-refused probe: in test mode the part_001 wrapper logs nothing
and the part_000 wrapper's lines are exactly the prober's console output;
in production mode both wrappers emit their full log sequences. -/
theorem test_mode_silences_all_but_probe_witness :
    ((wrapHandler001 "test" 0 "GET" "/api/health"
        (HandlerOutcome.returns sampleOkResp) 5).2 = []) ∧
    ((wrapHandler000 "test" 0 "GET" "/api/health"
        (HandlerOutcome.returns sampleOkResp) 5 "http://backend"
        fetchRefused).logs =
      probeConsoleLogs "http://backend" fetchRefused
        (HandlerOutcome.returns sampleOkResp)) ∧
    ((wrapHandler001 "production" 0 "GET" "/api/health"
        (HandlerOutcome.returns sampleOkResp) 5).2 =
      fullRequestLogs 0 5 "GET" "/api/health"
        (HandlerOutcome.returns sampleOkResp) ∧
     (wrapHandler000 "production" 0 "GET" "/api/health"
        (HandlerOutcome.returns sampleOkResp) 5 "http://backend"
        fetchRefused).logs =
      fullRequestLogs 0 5 "GET" "/api/health"
        (HandlerOutcome.returns sampleOkResp) ++
        wrap000ExtraLogs "GET" "/api/health" "http://backend" fetchRefused
          (HandlerOutcome.returns sampleOkResp)) := by
  have h := test_mode_silences_all_but_probe "production" 0 5 "GET" "/api/health"
    (HandlerOutcome.returns sampleOkResp) "http://backend" fetchRefused
  exact ⟨h.1, h.2.1, h.2.2 (by decide)⟩

/-- A framework control-flow signal: an `Error` whose digest is
`NEXT_NOT_FOUND`. -/
def nextSignalError : Thrown :=
  Thrown.jsError
    { message := "NEXT_NOT_FOUND"
      digest := some (DigestField.strDigest "NEXT_NOT_FOUND")
      isZod := false
      issues := []
      isApi := false
      status := 500 }

/-- An inner-handler invocation (with unit payload type) that throws the
framework control-flow signal. -/
def nextSignalOutcome : HandlerOutcome Unit :=
  HandlerOutcome.throws nextSignalError

/-- Counterexample for C10: an invocation whose inner handler throws a
framework control-flow signal re-raises it and never calls
`checkBackendHealth` — so not *every* invocation of the part_000 wrapper
probes the backend. -/
theorem probe_skipped_on_framework_signal :
    (wrapHandler000 "production" 0 "GET" "/api/health"
        nextSignalOutcome 5 "http://backend"
        fetchAlways200).probeCalls = 0 ∧
    (wrapHandler000 "production" 0 "GET" "/api/health"
        nextSignalOutcome 5 "http://backend"
        fetchAlways200).probeCalls ≠ 1 := by
  constructor
  · decide
  · decide

/-- C10 as amended: the part_000 wrapper settles exactly like part_001
(the probe never affects the returned response, and the response is
independent of the transport); every invocation that settles with a
response runs `checkBackendHealth` exactly once and appends the probe's
log lines and the verdict line after the completed-request line; an
invocation that re-raises a framework signal never probes. -/
theorem wrap000_probe_after_response_only {T : Type} (nodeEnv : String)
    (wrapTime completeTime : Int) (method url : String)
    (outcome : HandlerOutcome T) (baseUrl : String)
    (fetchF fetchG : String → FetchOutcome) :
    ((wrapHandler000 nodeEnv wrapTime method url outcome completeTime
        baseUrl fetchF).result =
      (wrapHandler001 nodeEnv wrapTime method url outcome completeTime).1) ∧
    ((wrapHandler000 nodeEnv wrapTime method url outcome completeTime
        baseUrl fetchF).result =
      (wrapHandler000 nodeEnv wrapTime method url outcome completeTime
        baseUrl fetchG).result) ∧
    (raisedFailure
        (wrapHandler000 nodeEnv wrapTime method url outcome completeTime
          baseUrl fetchF).result = none →
      (wrapHandler000 nodeEnv wrapTime method url outcome completeTime
          baseUrl fetchF).probeCalls = 1 ∧
      (wrapHandler000 nodeEnv wrapTime method url outcome completeTime
          baseUrl fetchF).logs =
        (wrapHandler001 nodeEnv wrapTime method url outcome completeTime).2 ++
          (checkBackendHealth baseUrl fetchF).2 ++
          condLog nodeEnv
            [LogEvent.backendVerdict method url
              (checkBackendHealth baseUrl fetchF).1]) ∧
    (raisedFailure
        (wrapHandler000 nodeEnv wrapTime method url outcome completeTime
          baseUrl fetchF).result ≠ none →
      (wrapHandler000 nodeEnv wrapTime method url outcome completeTime
          baseUrl fetchF).probeCalls = 0) := by
  cases outcome with
  | returns resp =>
    refine ⟨?_, ?_, ?_, ?_⟩ <;>
      simp [wrapHandler000, wrapHandler001, raisedFailure, List.append_assoc]
  | throws e =>
    cases hN : isNextJsError e with
    | true =>
      refine ⟨?_, ?_, ?_, ?_⟩ <;>
        simp [wrapHandler000, wrapHandler001, buildErrorResponse, hN,
          raisedFailure, List.append_assoc]
    | false =>
      cases hZ : isZodError e with
      | true =>
        refine ⟨?_, ?_, ?_, ?_⟩ <;>
          simp [wrapHandler000, wrapHandler001, buildErrorResponse, hN, hZ,
            raisedFailure, List.append_assoc]
      | false =>
        cases hA : isApiError e with
        | true =>
          refine ⟨?_, ?_, ?_, ?_⟩ <;>
            simp [wrapHandler000, wrapHandler001, buildErrorResponse, hN, hZ,
              hA, raisedFailure, List.append_assoc]
        | false =>
          refine ⟨?_, ?_, ?_, ?_⟩ <;>
            simp [wrapHandler000, wrapHandler001, buildErrorResponse, hN, hZ,
              hA, raisedFailure, List.append_assoc]

/-- Witness for C10 as amended: an invocation that settles with a response
probes exactly once and logs the verdict after the completed line; an
invocation that re-raises a framework signal never probes. -/
theorem wrap000_probe_after_response_only_witness :
    ((wrapHandler000 "production" 0 "GET" "/api/health"
        (HandlerOutcome.returns sampleOkResp) 5 "http://backend"
        fetchAlways200).probeCalls = 1 ∧
     (wrapHandler000 "production" 0 "GET" "/api/health"
        (HandlerOutcome.returns sampleOkResp) 5 "http://backend"
        fetchAlways200).logs =
       (wrapHandler001 "production" 0 "GET" "/api/health"
          (HandlerOutcome.returns sampleOkResp) 5).2 ++
         (checkBackendHealth "http://backend" fetchAlways200).2 ++
         condLog "production"
           [LogEvent.backendVerdict "GET" "/api/health"
             (checkBackendHealth "http://backend" fetchAlways200).1]) ∧
    ((wrapHandler000 "production" 0 "GET" "/api/health"
        nextSignalOutcome 5 "http://backend"
        fetchAlways200).probeCalls = 0) :=
  ⟨(wrap000_probe_after_response_only "production" 0 5 "GET" "/api/health"
      (HandlerOutcome.returns sampleOkResp) "http://backend"
      fetchAlways200 fetchAlways200).2.2.1 (by decide),
   (wrap000_probe_after_response_only "production" 0 5 "GET" "/api/health"
      nextSignalOutcome "http://backend"
      fetchAlways200 fetchAlways200).2.2.2 (by decide)⟩
